import Mathlib

/-!
Verification of the Promise/Core single-assignment handoff primitive
declared in folly/futures/Promise.h.

The header provides the exception-class hierarchy and a handful of inline
bodies (valid, getCoreImpl, the Unit setValue sugar); the Core object and
the remaining Promise member bodies are specified in the design document.
Definitions below that embed code absent from the header carry a doc
comment starting with "Modelled from the spec:".
-/

namespace Folly

/-- The C++ exception classes of Promise.h, as a closed enumeration of the
four failure conditions (PromiseInvalid, PromiseAlreadySatisfied,
FutureAlreadyRetrieved, BrokenPromise carrying the type name string). -/
inductive PromiseErr where
  | promiseInvalid
  | promiseAlreadySatisfied
  | futureAlreadyRetrieved
  | brokenPromise (typeName : String)
  deriving DecidableEq, Repr

/-- The what() message each exception class is constructed with, from the
constructor bodies in Promise.h lines 32-53. -/
def PromiseErr.message : PromiseErr → String
  | .promiseInvalid => "Promise invalid"
  | .promiseAlreadySatisfied => "Promise already satisfied"
  | .futureAlreadyRetrieved => "Future already retrieved"
  | .brokenPromise t => "Broken promise for type name `" ++ t ++ "`"

/-- The classes participating in the exception hierarchy of Promise.h,
including the std and base classes. -/
inductive ExcClass where
  | logicError
  | promiseException
  | promiseInvalid
  | promiseAlreadySatisfied
  | futureAlreadyRetrieved
  | brokenPromise
  deriving DecidableEq, Repr

/-- Direct base class of each class in the hierarchy, from the class heads
in Promise.h: PromiseException derives from std::logic_error, and the four
concrete failure classes each derive from PromiseException. -/
def ExcClass.base : ExcClass → Option ExcClass
  | .logicError => none
  | .promiseException => some .logicError
  | .promiseInvalid => some .promiseException
  | .promiseAlreadySatisfied => some .promiseException
  | .futureAlreadyRetrieved => some .promiseException
  | .brokenPromise => some .promiseException

/-- The type-erased failure wrapper (folly::exception_wrapper): it holds
either one of the library's own failure conditions or an arbitrary external
failure payload, represented by its description. -/
inductive ExnWrapper where
  | err (e : PromiseErr)
  | external (msg : String)
  deriving DecidableEq, Repr

/-- The result container Try<T>: a discriminated union of a success value
and a type-erased failure. -/
inductive Try (T : Type) where
  | value (v : T)
  | failure (e : ExnWrapper)
  deriving DecidableEq, Repr

/-- A continuation invocation event: continuation `cb` (identified by a
number) was invoked with result `arg`. -/
structure Invocation (T : Type) where
  cb : Nat
  arg : Try T
  deriving DecidableEq, Repr

/-- An interrupt-handler invocation event: handler `handler` was invoked
with interrupt reason `reason`. -/
structure HandlerCall where
  handler : Nat
  reason : ExnWrapper
  deriving DecidableEq, Repr

/-- Modelled from the spec: the Core's body is absent from the header
(Promise.h only forward-declares the core type). Per the data model of the
spec, a Core holds the at-most-once result, the at-most-once continuation
(identified by a number), the optional interrupt handler, and a recorded
pending interrupt reason. -/
structure Core (T : Type) where
  result : Option (Try T)
  continuation : Option Nat
  interruptHandler : Option Nat
  pendingInterrupt : Option ExnWrapper
  deriving DecidableEq, Repr

/-- A freshly constructed Core: unfulfilled, unattached, no handler. -/
def Core.fresh (T : Type) : Core T :=
  { result := none
    continuation := none
    interruptHandler := none
    pendingInterrupt := none }

/-- Modelled from the spec: Core transition 1, setResult. Fails with
PromiseAlreadySatisfied if the result axis is already Fulfilled; otherwise
stores the result and, if a continuation is already attached, invokes it
now with the stored result. Returns the new Core and the list of
continuation invocations performed. -/
def Core.setResult (c : Core T) (t : Try T) :
    Except PromiseErr (Core T × List (Invocation T)) :=
  match c.result with
  | some _ => .error .promiseAlreadySatisfied
  | none =>
    let c' := { c with result := some t }
    match c.continuation with
    | some cb => .ok (c', [⟨cb, t⟩])
    | none => .ok (c', [])

/-- Modelled from the spec: Core transition 2, attachContinuation. A second
attachment is a contract violation (returns none). If the result axis is
already Fulfilled, the continuation is invoked immediately with the stored
result; otherwise it is stored for the producer side to find. -/
def Core.attachContinuation (c : Core T) (cb : Nat) :
    Option (Core T × List (Invocation T)) :=
  match c.continuation with
  | some _ => none
  | none =>
    let c' := { c with continuation := some cb }
    match c.result with
    | some t => some (c', [⟨cb, t⟩])
    | none => some (c', [])

/-- Modelled from the spec: Core transition 3, abandonProducer. If the
result axis is Unfulfilled, synthesizes a BrokenPromise failure naming the
type and runs transition 1 with it; if already Fulfilled, a no-op. -/
def Core.abandonProducer (c : Core T) (typeName : String) :
    Core T × List (Invocation T) :=
  match c.result with
  | some _ => (c, [])
  | none =>
    let t : Try T := .failure (.err (.brokenPromise typeName))
    let c' := { c with result := some t }
    match c.continuation with
    | some cb => (c', [⟨cb, t⟩])
    | none => (c', [])

/-- Modelled from the spec: Core transition 4, requestInterrupt. If an
interrupt handler is registered, invoke it with the reason (this does not
fulfill the Core); otherwise record the request for dispatch at handler
registration time. -/
def Core.requestInterrupt (c : Core T) (reason : ExnWrapper) :
    Core T × List HandlerCall :=
  match c.interruptHandler with
  | some h => (c, [⟨h, reason⟩])
  | none => ({ c with pendingInterrupt := some reason }, [])

/-- Modelled from the spec: registering the interrupt handler. If an
interrupt request was recorded before any handler existed, it is dispatched
to the handler at the moment of registration. -/
def Core.setInterruptHandler (c : Core T) (h : Nat) :
    Core T × List HandlerCall :=
  match c.pendingInterrupt with
  | some r =>
    ({ c with interruptHandler := some h, pendingInterrupt := none }, [⟨h, r⟩])
  | none => ({ c with interruptHandler := some h }, [])

/-- The Promise handle: an optional pointer to the shared Core (none when
moved-from / empty) and the retrieved_ flag of Promise.h line 170 guarding
one-time retrieval of the consumer handle. -/
structure Promise (T : Type) where
  core : Option (Core T)
  retrieved : Bool
  deriving DecidableEq, Repr

/-- makeEmpty(): a Promise holding no Core, equivalent to moved-from.
Modelled from the spec together with the EmptyConstruct constructor
declaration: no core, retrieved flag false. -/
def Promise.makeEmpty (T : Type) : Promise T :=
  { core := none, retrieved := false }

/-- The default constructor: allocates a fresh Core, retrieved=false.
Modelled from the spec. -/
def Promise.fresh (T : Type) : Promise T :=
  { core := some (Core.fresh T), retrieved := false }

/-- getCoreImpl, from the inline body in Promise.h lines 187-193: throws
PromiseInvalid if there is no shared state object, else returns it. -/
def getCoreImpl (core : Option (Core T)) : Except PromiseErr (Core T) :=
  match core with
  | none => .error .promiseInvalid
  | some c => .ok c

/-- getCore, from the inline body in Promise.h lines 180-185. -/
def Promise.getCore (p : Promise T) : Except PromiseErr (Core T) :=
  getCoreImpl p.core

/-- valid(), from the inline body in Promise.h lines 153-155:
core_ != nullptr. -/
def Promise.valid (p : Promise T) : Bool :=
  p.core.isSome

/-- Modelled from the spec: throwIfFulfilled (declared Promise.h line 201)
fails with PromiseInvalid when there is no Core and with
PromiseAlreadySatisfied when the Core is already fulfilled. -/
def Promise.throwIfFulfilled (p : Promise T) : Except PromiseErr Unit :=
  match p.getCore with
  | .error e => .error e
  | .ok c => if c.result.isSome then .error .promiseAlreadySatisfied else .ok ()

/-- The consumer handle returned by getSemiFuture, bound to the same Core. -/
structure SemiFuture (T : Type) where
  core : Core T
  deriving DecidableEq, Repr

/-- The consumer handle returned by getFuture, bound to the same Core. -/
structure Future (T : Type) where
  core : Core T
  deriving DecidableEq, Repr

/-- Modelled from the spec: getSemiFuture fails with FutureAlreadyRetrieved
if retrieved is already true; otherwise it requires a live Core (failing
with PromiseInvalid on an empty Promise), marks retrieved true and returns
a consumer handle bound to the same Core. Returns the Promise after the
call together with the outcome. -/
def Promise.getSemiFuture (p : Promise T) :
    Promise T × Except PromiseErr (SemiFuture T) :=
  if p.retrieved then (p, .error .futureAlreadyRetrieved)
  else
    match p.core with
    | none => (p, .error .promiseInvalid)
    | some c => ({ p with retrieved := true }, .ok ⟨c⟩)

/-- Modelled from the spec: getFuture behaves as getSemiFuture, returning a
Future bound to the same Core. -/
def Promise.getFuture (p : Promise T) :
    Promise T × Except PromiseErr (Future T) :=
  match p.getSemiFuture with
  | (p', .error e) => (p', .error e)
  | (p', .ok sf) => (p', .ok ⟨sf.core⟩)

/-- Modelled from the spec: setTry routes to Core transition 1 after
throwIfFulfilled, failing with PromiseInvalid on an empty Promise and with
PromiseAlreadySatisfied on an already-fulfilled one. Returns the Promise
after the call and either the failure or the continuation invocations
performed. -/
def Promise.setTry (p : Promise T) (t : Try T) :
    Promise T × Except PromiseErr (List (Invocation T)) :=
  match p.throwIfFulfilled with
  | .error e => (p, .error e)
  | .ok _ =>
    match p.core with
    | none => (p, .error .promiseInvalid)
    | some c =>
      match c.setResult t with
      | .error e => (p, .error e)
      | .ok (c', evs) => ({ p with core := some c' }, .ok evs)

/-- Modelled from the spec: setValue(v) routes to setTry with a success
value. -/
def Promise.setValue (p : Promise T) (v : T) :
    Promise T × Except PromiseErr (List (Invocation T)) :=
  p.setTry (.value v)

/-- Modelled from the spec: setException(ew) routes to setTry with a
failure. -/
def Promise.setException (p : Promise T) (ew : ExnWrapper) :
    Promise T × Except PromiseErr (List (Invocation T)) :=
  p.setTry (.failure ew)

/-- The outcome of one invocation of the zero-argument closure passed to
setWith: it either returns a value or raises a failure described by a
message. -/
inductive FnOutcome (T : Type) where
  | returns (v : T)
  | raises (msg : String)
  deriving DecidableEq, Repr

/-- Modelled from the spec: makeTryWith runs the closure once and captures
a raised failure into the type-erased wrapper, producing a Try. -/
def makeTryWith (f : FnOutcome T) : Try T :=
  match f with
  | .returns v => .value v
  | .raises m => .failure (.external m)

/-- Modelled from the spec: setWith invokes the closure with no arguments,
captures any failure into the wrapper, and calls setTry with the resulting
Try. -/
def Promise.setWith (p : Promise T) (f : FnOutcome T) :
    Promise T × Except PromiseErr (List (Invocation T)) :=
  p.setTry (makeTryWith f)

/-- Modelled from the spec: Promise::setInterruptHandler registers the
handler on the Core, failing with PromiseInvalid on an empty Promise, and
returns any handler invocations dispatched for a recorded interrupt. -/
def Promise.setInterruptHandler (p : Promise T) (h : Nat) :
    Promise T × Except PromiseErr (List HandlerCall) :=
  match p.core with
  | none => (p, .error .promiseInvalid)
  | some c =>
    let res := c.setInterruptHandler h
    ({ p with core := some res.1 }, .ok res.2)

/-- Modelled from the spec: detach, run by the destructor and by move-out
(declared Promise.h line 202). On a non-empty Promise it triggers
abandonProducer on the Core before releasing the reference; on an empty
Promise it does nothing. Returns the Core left behind for the consumer
side and the continuation invocations performed. -/
def Promise.detach (p : Promise T) (typeName : String) :
    Option (Core T) × List (Invocation T) :=
  match p.core with
  | none => (none, [])
  | some c =>
    let res := c.abandonProducer typeName
    (some res.1, res.2)

/-- The zero-argument setValue overload, from the inline body in Promise.h
lines 130-134: it is enabled only when T is Unit and calls
setTry(Try<T>(T())); the default-constructed Unit value is the Lean unit
value. The enable_if restriction is rendered by the Promise Unit type. -/
def Promise.setValueUnit (p : Promise Unit) :
    Promise Unit × Except PromiseErr (List (Invocation Unit)) :=
  p.setTry (.value ())

/-- The uniform enumeration of the fallible Promise operations, used to
quantify over operations in the empty-Promise and failure-atomicity
claims. -/
inductive Op (T : Type) where
  | getSemiFuture
  | getFuture
  | setTry (t : Try T)
  | setValue (v : T)
  | setException (e : ExnWrapper)
  | setWith (f : FnOutcome T)
  | setInterruptHandler (h : Nat)

/-- Extract the failure of an Except outcome, if any. -/
def exceptErr : Except PromiseErr α → Option PromiseErr
  | .error e => some e
  | .ok _ => none

/-- Run one fallible Promise operation, returning the Promise state after
the call and the failure it raised, if any. -/
def runOp : Op T → Promise T → Promise T × Option PromiseErr
  | .getSemiFuture, p =>
    let r := p.getSemiFuture
    (r.1, exceptErr r.2)
  | .getFuture, p =>
    let r := p.getFuture
    (r.1, exceptErr r.2)
  | .setTry t, p =>
    let r := p.setTry t
    (r.1, exceptErr r.2)
  | .setValue v, p =>
    let r := p.setValue v
    (r.1, exceptErr r.2)
  | .setException e, p =>
    let r := p.setException e
    (r.1, exceptErr r.2)
  | .setWith f, p =>
    let r := p.setWith f
    (r.1, exceptErr r.2)
  | .setInterruptHandler h, p =>
    let r := p.setInterruptHandler h
    (r.1, exceptErr r.2)

end Folly

namespace Folly

/-- Helper: an operation run on a Promise never turns the retrieved flag
off: once true it stays true after any operation. -/
lemma runOp_preserves_retrieved (op : Op T) (q : Promise T)
    (hq : q.retrieved = true) : ((runOp op q).1).retrieved = true := by
  cases op <;>
    simp only [runOp, Promise.getSemiFuture, Promise.getFuture,
      Promise.setTry, Promise.setValue, Promise.setException, Promise.setWith,
      Promise.setInterruptHandler, hq, if_true] <;>
    (repeat' split) <;> simp_all

/-- Helper: every operation either succeeds or leaves the Promise (and
hence its Core) exactly as it was. -/
lemma runOp_ok_or_unchanged (op : Op T) (p : Promise T) :
    (runOp op p).2 = none ∨ (runOp op p).1 = p := by
  obtain ⟨co, rt⟩ := p
  cases op <;> cases rt <;>
    rcases co with _ | ⟨res, cont, ih, pi⟩ <;>
    first
      | (cases res <;> cases cont <;> cases pi <;>
          simp [runOp, Promise.getSemiFuture, Promise.getFuture,
            Promise.setTry, Promise.setValue, Promise.setException,
            Promise.setWith, Promise.setInterruptHandler,
            Promise.throwIfFulfilled, Promise.getCore, getCoreImpl,
            Core.setResult, Core.setInterruptHandler, exceptErr])
      | simp [runOp, Promise.getSemiFuture, Promise.getFuture,
          Promise.setTry, Promise.setValue, Promise.setException,
          Promise.setWith, Promise.setInterruptHandler,
          Promise.throwIfFulfilled, Promise.getCore, getCoreImpl,
          Core.setResult, Core.setInterruptHandler, exceptErr]

/-- Claim C1: from a Core that is unfulfilled and has no continuation
attached, under both orderings of producer fulfillment and consumer
attachment the first operation performs no invocation and the second
performs exactly the single invocation of the continuation with the stored
result: no invocation is lost and none happens twice. -/
theorem core_continuation_exactly_once (T : Type) (c : Core T) (t : Try T)
    (cb : Nat) (hres : c.result = none) (hcont : c.continuation = none) :
    (c.setResult t = .ok ({ c with result := some t }, []) ∧
      ({ c with result := some t } : Core T).attachContinuation cb =
        some ({ c with result := some t, continuation := some cb },
          [⟨cb, t⟩])) ∧
    (c.attachContinuation cb = some ({ c with continuation := some cb }, []) ∧
      ({ c with continuation := some cb } : Core T).setResult t =
        .ok ({ c with continuation := some cb, result := some t },
          [⟨cb, t⟩])) := by
  refine ⟨⟨?_, ?_⟩, ⟨?_, ?_⟩⟩ <;>
    simp [Core.setResult, Core.attachContinuation, hres, hcont]

/-- Witness for C1 at a concrete fresh Core over Nat. -/
theorem core_continuation_exactly_once_witness :
    ((Core.fresh Nat).setResult (.value 7) =
      .ok ({ Core.fresh Nat with result := some (.value 7) }, []) ∧
      ({ Core.fresh Nat with result := some (.value 7) } : Core Nat).attachContinuation 0 =
        some ({ Core.fresh Nat with result := some (.value 7), continuation := some 0 },
          [⟨0, .value 7⟩])) ∧
    ((Core.fresh Nat).attachContinuation 0 =
        some ({ Core.fresh Nat with continuation := some 0 }, []) ∧
      ({ Core.fresh Nat with continuation := some 0 } : Core Nat).setResult
          (.value 7) =
        .ok ({ Core.fresh Nat with continuation := some 0, result := some (.value 7) },
          [⟨0, .value 7⟩])) :=
  core_continuation_exactly_once Nat (Core.fresh Nat) (.value 7) 0 rfl rfl

/-- Claim C2: fulfillment succeeds at most once. From an unfulfilled Core,
setTry succeeds and stores the result; a second setTry on the resulting
Promise fails with PromiseAlreadySatisfied and leaves the Promise (hence
the stored result) unchanged; any Promise whose Core is already fulfilled
fails the same way; setValue and setException route through setTry; and a
fulfillment attempt on an empty Promise fails with PromiseInvalid. -/
theorem setResult_at_most_once (T : Type) (p : Promise T) (c : Core T)
    (t t2 : Try T) (hc : p.core = some c) (hres : c.result = none) :
    exceptErr (p.setTry t).2 = none ∧
    ((p.setTry t).1).core = some { c with result := some t } ∧
    ((p.setTry t).1).setTry t2 =
      ((p.setTry t).1, .error .promiseAlreadySatisfied) ∧
    (∀ (q : Promise T) (cq : Core T), q.core = some cq →
      cq.result.isSome = true →
      q.setTry t2 = (q, .error .promiseAlreadySatisfied)) ∧
    (∀ v : T, p.setValue v = p.setTry (.value v)) ∧
    (∀ ew : ExnWrapper, p.setException ew = p.setTry (.failure ew)) ∧
    (Promise.makeEmpty T).setTry t =
      (Promise.makeEmpty T, .error .promiseInvalid) := by
  have hfail : ∀ (q : Promise T) (cq : Core T), q.core = some cq →
      cq.result.isSome = true →
      q.setTry t2 = (q, .error .promiseAlreadySatisfied) := by
    intro q cq hq hfull
    simp [Promise.setTry, Promise.throwIfFulfilled, Promise.getCore,
      getCoreImpl, hq, hfull]
  have hok : p.setTry t =
      ({ p with core := some { c with result := some t } },
        .ok (match c.continuation with
          | some cb => [⟨cb, t⟩]
          | none => [])) := by
    cases hcont : c.continuation <;>
      simp [Promise.setTry, Promise.throwIfFulfilled, Promise.getCore,
        getCoreImpl, Core.setResult, hc, hres, hcont]
  refine ⟨?_, ?_, ?_, hfail, fun v => rfl, fun ew => rfl, rfl⟩
  · rw [hok]; cases c.continuation <;> rfl
  · rw [hok]
  · rw [hok]
    exact hfail _ { c with result := some t } rfl rfl

/-- Witness for C2 at a concrete fresh Promise over Nat. -/
theorem setResult_at_most_once_witness :
    ((Promise.fresh Nat).setTry (.value 3)).1.setTry (.value 4) =
      (((Promise.fresh Nat).setTry (.value 3)).1,
        .error .promiseAlreadySatisfied) :=
  (setResult_at_most_once Nat (Promise.fresh Nat) (Core.fresh Nat)
    (.value 3) (.value 4) rfl rfl).2.2.1

end Folly

namespace Folly

/-- Claim C3: at most one consumer handle is ever retrieved. On a Promise
not yet retrieved and holding a live Core, getSemiFuture and getFuture
succeed and mark the Promise retrieved; on any Promise already marked
retrieved, both fail with FutureAlreadyRetrieved; and no operation ever
clears the retrieved mark, so after the one success every later call to
either fails. -/
theorem consumer_handle_retrieved_once (T : Type) (p : Promise T)
    (c : Core T) (hr : p.retrieved = false) (hc : p.core = some c) :
    p.getSemiFuture = ({ p with retrieved := true }, .ok ⟨c⟩) ∧
    p.getFuture = ({ p with retrieved := true }, .ok ⟨c⟩) ∧
    (∀ q : Promise T, q.retrieved = true →
      q.getSemiFuture = (q, .error .futureAlreadyRetrieved) ∧
      q.getFuture = (q, .error .futureAlreadyRetrieved)) ∧
    (∀ (op : Op T) (q : Promise T), q.retrieved = true →
      ((runOp op q).1).retrieved = true) := by
  have hret : ∀ q : Promise T, q.retrieved = true →
      q.getSemiFuture = (q, .error .futureAlreadyRetrieved) ∧
      q.getFuture = (q, .error .futureAlreadyRetrieved) := by
    intro q hq
    constructor <;> simp [Promise.getSemiFuture, Promise.getFuture, hq]
  refine ⟨?_, ?_, hret, fun op q hq => runOp_preserves_retrieved op q hq⟩ <;>
    simp [Promise.getSemiFuture, Promise.getFuture, hr, hc]

/-- Witness for C3 at a concrete fresh Promise over Nat: the first
retrieval succeeds; the second fails with FutureAlreadyRetrieved. -/
theorem consumer_handle_retrieved_once_witness :
    (Promise.fresh Nat).getSemiFuture =
      ({ Promise.fresh Nat with retrieved := true }, .ok ⟨Core.fresh Nat⟩) ∧
    ({ Promise.fresh Nat with retrieved := true } : Promise Nat).getFuture =
      ({ Promise.fresh Nat with retrieved := true },
        .error .futureAlreadyRetrieved) :=
  ⟨(consumer_handle_retrieved_once Nat (Promise.fresh Nat) (Core.fresh Nat)
      rfl rfl).1,
    ((consumer_handle_retrieved_once Nat (Promise.fresh Nat) (Core.fresh Nat)
      rfl rfl).2.2.1 _ rfl).2⟩

/-- Claim C4: destroying (or moving out of) a non-empty Promise runs
detach. If the Core is unfulfilled and a continuation is attached, the
continuation is invoked with the synthesized BrokenPromise failure naming
the type; if the Core is unfulfilled and unattached, the failure is stored
and a continuation attached afterwards observes it; if the Core is already
fulfilled, detach leaves the result untouched and invokes nothing. -/
theorem broken_promise_on_destroy (T : Type) (p : Promise T) (c : Core T)
    (cb : Nat) (tn : String) (hc : p.core = some c) :
    (c.result = none → ∀ cb0, c.continuation = some cb0 →
      p.detach tn =
        (some { c with result := some (.failure (.err (.brokenPromise tn))) },
          [⟨cb0, .failure (.err (.brokenPromise tn))⟩])) ∧
    (c.result = none → c.continuation = none →
      p.detach tn =
        (some { c with result := some (.failure (.err (.brokenPromise tn))) },
          []) ∧
      ({ c with result := some (.failure (.err (.brokenPromise tn))) } :
          Core T).attachContinuation cb =
        some ({ c with result := some (.failure (.err (.brokenPromise tn))), continuation := some cb },
          [⟨cb, .failure (.err (.brokenPromise tn))⟩])) ∧
    (∀ t, c.result = some t → p.detach tn = (some c, [])) := by
  refine ⟨?_, ?_, ?_⟩
  · intro hres cb0 hcont
    simp [Promise.detach, Core.abandonProducer, hc, hres, hcont]
  · intro hres hcont
    constructor <;>
      simp [Promise.detach, Core.abandonProducer, Core.attachContinuation,
        hc, hres, hcont]
  · intro t hres
    simp [Promise.detach, Core.abandonProducer, hc, hres]

/-- Witness for C4: a fresh Promise over Nat with a continuation attached
to its Core; destroying it delivers the BrokenPromise failure for type
name int to that continuation. -/
theorem broken_promise_on_destroy_witness :
    (Promise.mk (some { Core.fresh Nat with continuation := some 2 }) true :
        Promise Nat).detach "int" =
      (some { Core.fresh Nat with continuation := some 2, result := some (.failure (.err (.brokenPromise "int"))) },
        [⟨2, .failure (.err (.brokenPromise "int"))⟩]) := by
  have h := (broken_promise_on_destroy Nat
    (Promise.mk (some { Core.fresh Nat with continuation := some 2 }) true)
    { Core.fresh Nat with continuation := some 2 } 0 "int" rfl).1 rfl 2 rfl
  simpa using h

end Folly

namespace Folly

/-- Counterexample to claim C5 as stated: valid() is an operation on an
empty Promise other than destruction or move-assignment (its body is in
the header, line 153: return core_ != nullptr), yet on makeEmpty it
completes normally returning false instead of failing with
PromiseInvalid. -/
theorem empty_promise_valid_counterexample :
    Promise.valid (Promise.makeEmpty Nat) = false := rfl

/-- Claim C5 (amended): every Core-accessing operation on an empty Promise
(getSemiFuture, getFuture, setTry, setValue, setException, setWith,
setInterruptHandler) fails with PromiseInvalid, never any other condition,
and leaves the Promise unchanged; the noexcept observer valid() does not
fail and returns false. -/
theorem empty_promise_ops_invalid (T : Type) (op : Op T) :
    runOp op (Promise.makeEmpty T) =
      (Promise.makeEmpty T, some .promiseInvalid) ∧
    Promise.valid (Promise.makeEmpty T) = false := by
  refine ⟨?_, rfl⟩
  cases op <;> rfl

/-- Claim C6: setWith fulfills the Promise with the outcome of the
zero-argument closure. On an unfulfilled Promise, setWith of a closure
returning v succeeds and the Core afterwards holds value v, and setWith of
a closure raising a failure succeeds and the Core afterwards holds that
failure captured in the type-erased wrapper; in both cases the Promise is
fulfilled, not left empty-handed. -/
theorem setWith_outcome (T : Type) (p : Promise T) (c : Core T) (v : T)
    (m : String) (hc : p.core = some c) (hres : c.result = none) :
    (p.setWith (.returns v)).1.core =
      some { c with result := some (.value v) } ∧
    exceptErr (p.setWith (.returns v)).2 = none ∧
    (p.setWith (.raises m)).1.core =
      some { c with result := some (.failure (.external m)) } ∧
    exceptErr (p.setWith (.raises m)).2 = none := by
  refine ⟨?_, ?_, ?_, ?_⟩ <;>
    cases hcont : c.continuation <;>
      simp [Promise.setWith, makeTryWith, Promise.setTry,
        Promise.throwIfFulfilled, Promise.getCore, getCoreImpl,
        Core.setResult, exceptErr, hc, hres, hcont]

/-- Witness for C6: the round trip on a fresh Promise over Nat; setWith of
a closure returning 42 stores value 42, and setWith of a closure raising
boom stores the wrapped boom failure. -/
theorem setWith_outcome_witness :
    ((Promise.fresh Nat).setWith (.returns 42)).1.core =
      some { Core.fresh Nat with result := some (.value 42) } ∧
    ((Promise.fresh Nat).setWith (.raises "boom")).1.core =
      some { Core.fresh Nat with result := some (.failure (.external "boom")) } :=
  ⟨(setWith_outcome Nat (Promise.fresh Nat) (Core.fresh Nat) 42 "boom"
      rfl rfl).1,
    (setWith_outcome Nat (Promise.fresh Nat) (Core.fresh Nat) 42 "boom"
      rfl rfl).2.2.1⟩

/-- Claim C7: atomicity of failure. Whenever an operation fails (with any
of the contract-violation conditions), the Promise after the failed
operation — and hence the Core's observable state — is exactly what it was
before: no field is left half-mutated. -/
theorem failed_op_leaves_state (T : Type) (op : Op T) (p : Promise T)
    (e : PromiseErr) (h : (runOp op p).2 = some e) : (runOp op p).1 = p := by
  rcases runOp_ok_or_unchanged op p with hnone | hsame
  · rw [hnone] at h; exact absurd h (by simp)
  · exact hsame

/-- Witness for C7: a second fulfillment attempt on an already-fulfilled
Promise over Nat fails with PromiseAlreadySatisfied and leaves the Promise
unchanged. -/
theorem failed_op_leaves_state_witness :
    (runOp (Op.setTry (.value 5))
      (Promise.mk (some { Core.fresh Nat with result := some (.value 9) }) true)).2 =
      some .promiseAlreadySatisfied ∧
    (runOp (Op.setTry (.value 5))
      (Promise.mk (some { Core.fresh Nat with result := some (.value 9) }) true)).1 =
      Promise.mk (some { Core.fresh Nat with result := some (.value 9) }) true :=
  ⟨rfl, failed_op_leaves_state Nat (Op.setTry (.value 5))
    (Promise.mk (some { Core.fresh Nat with result := some (.value 9) }) true)
    .promiseAlreadySatisfied rfl⟩

/-- Claim C8: an interrupt requested before any handler is registered is
never lost: requestInterrupt records it without invoking anything and
without fulfilling the Core (the result field is untouched in every case),
and the recorded reason is dispatched to the handler at the moment
setInterruptHandler registers one; when a handler is already registered,
requestInterrupt invokes it with the given reason. -/
theorem interrupt_not_lost (T : Type) (c : Core T) (r : ExnWrapper)
    (h : Nat) :
    ((c.requestInterrupt r).1.result = c.result) ∧
    (∀ hid, c.interruptHandler = some hid →
      c.requestInterrupt r = (c, [⟨hid, r⟩])) ∧
    (c.interruptHandler = none →
      (c.requestInterrupt r).2 = [] ∧
      (c.requestInterrupt r).1.pendingInterrupt = some r ∧
      ((c.requestInterrupt r).1.setInterruptHandler h).2 = [⟨h, r⟩] ∧
      ((c.requestInterrupt r).1.setInterruptHandler h).1.interruptHandler =
        some h) := by
  refine ⟨?_, ?_, ?_⟩
  · cases hih : c.interruptHandler <;> simp [Core.requestInterrupt, hih]
  · intro hid hih
    simp [Core.requestInterrupt, hih]
  · intro hih
    refine ⟨?_, ?_, ?_, ?_⟩ <;>
      simp [Core.requestInterrupt, Core.setInterruptHandler, hih]

/-- Witness for C8: on a fresh Core over Nat, an interrupt with a given
reason requested before registration is dispatched to handler 3 exactly
when the handler is registered. -/
theorem interrupt_not_lost_witness :
    (((Core.fresh Nat).requestInterrupt (.external "cancel")).1.setInterruptHandler 3).2 =
      [⟨3, .external "cancel"⟩] :=
  ((interrupt_not_lost Nat (Core.fresh Nat) (.external "cancel") 3).2.2
    rfl).2.2.1

end Folly

namespace Folly

/-- Claim C9: the failure taxonomy of Promise.h. Each condition is a
distinct class deriving from PromiseException, which itself derives from
std::logic_error, and each carries its fixed message: "Promise invalid",
"Promise already satisfied", "Future already retrieved", and for
BrokenPromise the text "Broken promise for type name `" followed by the
type name and a closing backtick. -/
theorem exception_taxonomy :
    PromiseErr.message .promiseInvalid = "Promise invalid" ∧
    PromiseErr.message .promiseAlreadySatisfied =
      "Promise already satisfied" ∧
    PromiseErr.message .futureAlreadyRetrieved =
      "Future already retrieved" ∧
    (∀ t : String, PromiseErr.message (.brokenPromise t) =
      "Broken promise for type name `" ++ t ++ "`") ∧
    ExcClass.base .promiseInvalid = some .promiseException ∧
    ExcClass.base .promiseAlreadySatisfied = some .promiseException ∧
    ExcClass.base .futureAlreadyRetrieved = some .promiseException ∧
    ExcClass.base .brokenPromise = some .promiseException ∧
    ExcClass.base .promiseException = some .logicError ∧
    List.Pairwise (fun a b => a ≠ b)
      [ExcClass.promiseInvalid, ExcClass.promiseAlreadySatisfied,
       ExcClass.futureAlreadyRetrieved, ExcClass.brokenPromise] :=
  ⟨rfl, rfl, rfl, fun t => rfl, rfl, rfl, rfl, rfl, rfl, by decide⟩

/-- Spec-side definition for claim C10, following the spec words only:
the zero-argument setValue on Promise<Unit> fulfills the Promise with a
default-constructed success value, with the same failure conditions as
setTry — PromiseInvalid on an empty Promise, PromiseAlreadySatisfied on an
already-fulfilled one, and otherwise it stores the unit success value and
invokes an attached continuation with it. -/
def setValueUnitSpec (p : Promise Unit) :
    Promise Unit × Except PromiseErr (List (Invocation Unit)) :=
  match p.core with
  | none => (p, .error .promiseInvalid)
  | some c =>
    match c.result with
    | some _ => (p, .error .promiseAlreadySatisfied)
    | none =>
      let t : Try Unit := .value ()
      let c' := { c with result := some t }
      match c.continuation with
      | some cb => ({ p with core := some c' }, .ok [⟨cb, t⟩])
      | none => ({ p with core := some c' }, .ok [])

/-- Claim C10: the zero-argument setValue, enabled only for T = Unit
(rendered here by its type, Promise Unit), is the source body
setTry(Try<T>(T())) — fulfillment with a default-constructed success
value — and agrees with the spec-side description with all the same
failure conditions as setTry. -/
theorem setValueUnit_eq_setTry_default (p : Promise Unit) :
    p.setValueUnit = p.setTry (.value ()) ∧
    p.setValueUnit = setValueUnitSpec p := by
  refine ⟨rfl, ?_⟩
  obtain ⟨co, rt⟩ := p
  rcases co with _ | ⟨res, cont, ih, pi⟩
  · rfl
  · cases res <;> cases cont <;>
      simp [Promise.setValueUnit, Promise.setTry, Promise.throwIfFulfilled,
        Promise.getCore, getCoreImpl, Core.setResult, setValueUnitSpec]

end Folly

namespace Folly

/-- Witness for the amended C5 at a concrete operation: setValue on the
empty Promise over Nat fails with PromiseInvalid and leaves it unchanged. -/
theorem empty_promise_ops_invalid_witness :
    runOp (Op.setValue 1) (Promise.makeEmpty Nat) =
      (Promise.makeEmpty Nat, some .promiseInvalid) :=
  (empty_promise_ops_invalid Nat (Op.setValue 1)).1

/-- Witness for C10 at a concrete fresh Promise over Unit. -/
theorem setValueUnit_eq_setTry_default_witness :
    (Promise.fresh Unit).setValueUnit = setValueUnitSpec (Promise.fresh Unit) :=
  (setValueUnit_eq_setTry_default (Promise.fresh Unit)).2

end Folly
